import Mathlib

/-!
Verification of the incremental JPEG decode driver
(`src/samples/chromium_integration/jpeg_image_decoder.cc`, class
`JPEGRsImageDecoder`) against its natural-language specification.

The driver is embedded shallowly: the mutable fields of the decoder object
(and of its host `ImageDecoder` base that the driver reads or writes) become
a `Session` record; one invocation of `JPEGRsImageDecoder::Decode(index,
only_size)` becomes the pure function `decodeStep`.  The decode engine
(`jpeg_rs::JpegRsDecoder`, Rust code outside the translated sample) and the
host framework are opaque collaborators: their answers for the single call —
the `ProcessResult` of `parse_headers`, the `ProcessResult` of
`decode_image_with_stride`, the `BasicInfo`, the host's `InitFrameBuffer`
and `bitmap.getPixels()` outcomes — are supplied as oracle fields of
`CallInput`, and the host's size policy (`SetSize`) as a predicate on the
reported dimensions.  `decodeStep` also returns a `CallEffects` record
telling which engine/host operations the call performed, so that claims
about "no engine call", "no frame-buffer write" or "block runs at most
once" are statable.
-/

namespace JPEGRs

/-- `jpeg_rs::JpegRsStatus` (Success / NeedMoreInput / Error). -/
inductive JpegRsStatus where
  | success
  | needMoreInput
  | error
  deriving DecidableEq, Repr

/-- `jpeg_rs::JpegRsProcessResult`: a status plus `bytes_consumed`. -/
structure JpegRsProcessResult where
  status : JpegRsStatus
  bytes_consumed : Nat
  deriving DecidableEq, Repr

/-- `jpeg_rs::JpegRsBasicInfo` (the fields the driver reads). -/
structure JpegRsBasicInfo where
  width : Nat
  height : Nat
  bits_per_sample : Nat
  deriving DecidableEq, Repr

/-- `JPEGRsImageDecoder::DecoderState` from the header file. -/
inductive DecoderState where
  | kInitial
  | kHaveBasicInfo
  | kDecoding
  | kComplete
  | kError
  deriving DecidableEq, Repr

/-- The driver's mutable state: the `JPEGRsImageDecoder` fields
(`decoder_`, `decoder_state_`, `basic_info_`, `have_metadata_`,
`is_high_bit_depth_`, `input_offset_`) together with the host-side state
the driver reads or writes: the terminal failed flag (`Failed()` /
`SetFailed()`), size availability (`IsDecodedSizeAvailable()` after a
successful `SetSize`), the frame cache size (`frame_buffer_cache_.size()`,
0 or 1 here), and the single frame's completion / pixels-changed marks. -/
structure Session where
  hasDecoder : Bool
  decoder_state : DecoderState
  basic_info : JpegRsBasicInfo
  have_metadata : Bool
  is_high_bit_depth : Bool
  input_offset : Nat
  failed : Bool
  sizeAvailable : Bool
  frameBuffers : Nat
  frameComplete : Bool
  framePixelsChanged : Bool
  deriving DecidableEq, Repr

/-- The freshly constructed decoder object: no engine handle, state
`kInitial`, offset 0, no metadata, nothing failed, no frames. -/
def initialSession : Session where
  hasDecoder := false
  decoder_state := DecoderState.kInitial
  basic_info := ⟨0, 0, 0⟩
  have_metadata := false
  is_high_bit_depth := false
  input_offset := 0
  failed := false
  sizeAvailable := false
  frameBuffers := 0
  frameComplete := false
  framePixelsChanged := false

/-- Everything one `Decode(index, only_size)` call depends on besides the
session: the caller's arguments, the accumulated input size
(`reader.size()`), `IsAllDataReceived()`, and the oracle answers of the
opaque engine and host for this call. -/
structure CallInput where
  index : Nat
  only_size : Bool
  data_size : Nat
  all_input : Bool
  parseResult : JpegRsProcessResult
  engineBasicInfo : JpegRsBasicInfo
  ignoresColorSpace : Bool
  initFrameBufferOk : Bool
  framePixelsAvail : Bool
  decodeResult : JpegRsProcessResult
  deriving DecidableEq, Repr

/-- Which externally visible operations a single call performed. -/
structure CallEffects where
  parseCalled : Bool
  getBasicInfoCalled : Bool
  setPixelFormatCalled : Bool
  getIccCalled : Bool
  frameAllocated : Bool
  initFrameCalled : Bool
  decodeCalled : Bool
  deriving DecidableEq, Repr

/-- No operation performed (early-return paths). -/
def noEffects : CallEffects :=
  ⟨false, false, false, false, false, false, false⟩

/-- Effects after `parse_headers` alone was invoked. -/
def parseOnlyEff : CallEffects :=
  ⟨true, false, false, false, false, false, false⟩

/-- Effects after `parse_headers` succeeded and `get_basic_info` ran. -/
def parseInfoEff : CallEffects :=
  ⟨true, true, false, false, false, false, false⟩

/-- Effects of a completed metadata block with `IgnoresColorSpace()` true
(no ICC fetch). -/
def metaEffNoIcc : CallEffects :=
  ⟨true, true, true, false, false, false, false⟩

/-- Effects of a completed metadata block including the ICC fetch. -/
def metaEffIcc : CallEffects :=
  ⟨true, true, true, true, false, false, false⟩

/-- Lines 121–125: lazily create the engine handle (`decoder_ =
jpeg_rs_decoder_create(...)`), resetting `decoder_state_` and
`input_offset_`. -/
def afterCreate (s : Session) : Session :=
  if s.hasDecoder then s
  else { s with hasDecoder := true,
                decoder_state := DecoderState.kInitial,
                input_offset := 0 }

/-- Lines 191–240, the `kHaveBasicInfo` case: ensure the frame cache holds
one frame, `InitFrameBuffer(0)` (terminal failure if it refuses), terminal
failure if the bitmap has no pixel memory, then
`decode_image_with_stride` on the input window computed at entry to the
call, dispatching on its status.  `e` carries the effects accumulated
earlier in the same call (empty, or the metadata block's effects when
control fell through from the `kInitial` case). -/
def pixelPhase (s : Session) (c : CallInput) (e : CallEffects) :
    Session × CallEffects :=
  let s1 := if s.frameBuffers = 0 then { s with frameBuffers := 1 } else s
  let e1 := if s.frameBuffers = 0 then
      { e with frameAllocated := true, initFrameCalled := true }
    else { e with initFrameCalled := true }
  if c.initFrameBufferOk = false then ({ s1 with failed := true }, e1)
  else if c.framePixelsAvail = false then ({ s1 with failed := true }, e1)
  else
    let e2 := { e1 with decodeCalled := true }
    match c.decodeResult.status with
    | JpegRsStatus.error => ({ s1 with failed := true }, e2)
    | JpegRsStatus.needMoreInput =>
        ({ s1 with
            input_offset := s1.input_offset + c.decodeResult.bytes_consumed,
            framePixelsChanged := true }, e2)
    | JpegRsStatus.success =>
        ({ s1 with
            input_offset := s1.input_offset + c.decodeResult.bytes_consumed,
            framePixelsChanged := true,
            frameComplete := true,
            decoder_state := DecoderState.kComplete }, e2)

/-- Lines 139–189, the `kInitial` case: `parse_headers`, then on `Error`
`SetFailed()` and return (note: `bytes_consumed` is NOT added on this
path), on `NeedMoreInput` advance the offset and return, on `Success`
read `get_basic_info`, advance the offset, run `SetSize` (silent return
on rejection), classify high bit depth, `set_pixel_format(Bgra8)`, fetch
the ICC profile unless suppressed, set `have_metadata_` and move to
`kHaveBasicInfo`; size-only requests return here, full requests fall
through into `pixelPhase`. -/
def parsePhase (pol : Nat → Nat → Bool) (s : Session) (c : CallInput) :
    Session × CallEffects :=
  match c.parseResult.status with
  | JpegRsStatus.error => ({ s with failed := true }, parseOnlyEff)
  | JpegRsStatus.needMoreInput =>
      ({ s with input_offset := s.input_offset + c.parseResult.bytes_consumed },
       parseOnlyEff)
  | JpegRsStatus.success =>
      let s1 := { s with
          basic_info := c.engineBasicInfo,
          input_offset := s.input_offset + c.parseResult.bytes_consumed }
      if pol c.engineBasicInfo.width c.engineBasicInfo.height = false then
        (s1, parseInfoEff)
      else
        let s2 := { s1 with sizeAvailable := true }
        let s3 := if 8 < c.engineBasicInfo.bits_per_sample then
            { s2 with is_high_bit_depth := true }
          else s2
        let s4 := { s3 with have_metadata := true,
                            decoder_state := DecoderState.kHaveBasicInfo }
        let e := if c.ignoresColorSpace then metaEffNoIcc else metaEffIcc
        if c.only_size then (s4, e) else pixelPhase s4 c e

/-- One invocation of `JPEGRsImageDecoder::Decode(index, only_size)`
(lines 100–251).  `pol` is the host's size policy (`SetSize`).  Early
returns: already failed; size-only with metadata and size available;
requested frame already complete.  Then lazy engine creation, and the
state-machine dispatch guarded by `remaining > 0`
(`data_size - input_offset_`, a `size_t` subtraction — modeled with
truncated `Nat` subtraction, which agrees with the source whenever
`input_offset ≤ data_size`). -/
def decodeStep (pol : Nat → Nat → Bool) (s : Session) (c : CallInput) :
    Session × CallEffects :=
  if s.failed then (s, noEffects)
  else if c.only_size && s.sizeAvailable && s.have_metadata then (s, noEffects)
  else if !c.only_size && decide (c.index < s.frameBuffers) && s.frameComplete
    then (s, noEffects)
  else
    let t := afterCreate s
    if 0 < c.data_size - t.input_offset then
      match t.decoder_state with
      | DecoderState.kInitial => parsePhase pol t c
      | DecoderState.kHaveBasicInfo => pixelPhase t c noEffects
      | DecoderState.kComplete => (t, noEffects)
      | DecoderState.kError => (t, noEffects)
      | DecoderState.kDecoding => (t, noEffects)
    else (t, noEffects)

/-- A sequence of `Decode` calls: the final session plus the per-call
effects, in call order. -/
def runTrace (pol : Nat → Nat → Bool) :
    Session → List CallInput → Session × List CallEffects
  | s, [] => (s, [])
  | s, c :: cs =>
      let p := decodeStep pol s c
      let q := runTrace pol p.1 cs
      (q.1, p.2 :: q.2)

/-- `MatchesJPEGSignature` (lines 64–73): return `false` when fewer than
4 bytes are available, otherwise apply the engine's signature predicate
(`jpeg_rs_signature_check`, abstract here) to the first 4 bytes. -/
def MatchesJPEGSignature (sig : List Nat → Bool) (data : List Nat) : Bool :=
  if data.length < 4 then false
  else sig (List.take 4 data)

/-- State invariant of reachable sessions:
1. before the engine handle exists nothing has advanced;
2. the states `kError` / `kDecoding` are never assigned by the driver;
3. `have_metadata_` holds exactly in the post-metadata states;
4. metadata implies the host accepted the size;
5. the frame is complete only in state `kComplete`. -/
def Inv (s : Session) : Prop :=
  (s.hasDecoder = false →
      s.input_offset = 0 ∧ s.decoder_state = DecoderState.kInitial)
  ∧ (s.decoder_state ≠ DecoderState.kError
      ∧ s.decoder_state ≠ DecoderState.kDecoding)
  ∧ (s.have_metadata = true ↔
      (s.decoder_state = DecoderState.kHaveBasicInfo
        ∨ s.decoder_state = DecoderState.kComplete))
  ∧ (s.have_metadata = true → s.sizeAvailable = true)
  ∧ (s.frameComplete = true → s.decoder_state = DecoderState.kComplete)

instance (s : Session) : Decidable (Inv s) := by
  unfold Inv
  infer_instance

theorem inv_initial : Inv initialSession := by decide

theorem inv_afterCreate (s : Session) (h : Inv s) : Inv (afterCreate s) := by
  obtain ⟨h1, h2, h3, h4, h5⟩ := h
  unfold afterCreate
  by_cases hd : s.hasDecoder
  · simpa [hd] using ⟨h1, h2, h3, h4, h5⟩
  · simp only [Bool.not_eq_true] at hd
    obtain ⟨ho, hst⟩ := h1 hd
    have hm : s.have_metadata = false := by
      cases hmm : s.have_metadata with
      | false => rfl
      | true => simp [hst] at h3; exact absurd hmm (by simp [h3])
    have hfc : s.frameComplete = false := by
      cases hff : s.frameComplete with
      | false => rfl
      | true => rw [h5 hff] at hst; cases hst
    simp [hd, Inv, hm, hfc]

theorem afterCreate_hasDecoder (s : Session) :
    (afterCreate s).hasDecoder = true := by
  unfold afterCreate
  by_cases hd : s.hasDecoder <;> simp [hd]

theorem afterCreate_fields (s : Session) (h : Inv s) :
    (afterCreate s).input_offset = s.input_offset
      ∧ (afterCreate s).decoder_state = s.decoder_state
      ∧ (afterCreate s).have_metadata = s.have_metadata
      ∧ (afterCreate s).is_high_bit_depth = s.is_high_bit_depth
      ∧ (afterCreate s).failed = s.failed
      ∧ (afterCreate s).sizeAvailable = s.sizeAvailable
      ∧ (afterCreate s).frameBuffers = s.frameBuffers
      ∧ (afterCreate s).frameComplete = s.frameComplete
      ∧ (afterCreate s).framePixelsChanged = s.framePixelsChanged
      ∧ (afterCreate s).basic_info = s.basic_info := by
  unfold afterCreate
  by_cases hd : s.hasDecoder
  · simp [hd]
  · simp only [Bool.not_eq_true] at hd
    obtain ⟨ho, hst⟩ := h.1 hd
    simp [hd, ho, hst]

theorem inv_pixelPhase (s : Session) (c : CallInput) (e : CallEffects)
    (h : Inv s) (hd : s.hasDecoder = true)
    (hst : s.decoder_state = DecoderState.kHaveBasicInfo) :
    Inv (pixelPhase s c e).1 := by
  obtain ⟨h1, h2, h3, h4, h5⟩ := h
  have hm : s.have_metadata = true := h3.mpr (Or.inl hst)
  have hsa : s.sizeAvailable = true := h4 hm
  have hfc : s.frameComplete = false := by
    cases hff : s.frameComplete with
    | false => rfl
    | true => rw [h5 hff] at hst; cases hst
  unfold pixelPhase
  by_cases hfb : s.frameBuffers = 0 <;>
    by_cases hio : c.initFrameBufferOk <;>
      by_cases hpa : c.framePixelsAvail <;>
        cases hds : c.decodeResult.status <;>
          simp [hfb, hio, hpa, hds, Inv, hd, hst, hm, hsa, hfc]

theorem inv_of_meta (u : Session) (hd : u.hasDecoder = true)
    (hst : u.decoder_state = DecoderState.kHaveBasicInfo)
    (hm : u.have_metadata = true) (hsa : u.sizeAvailable = true)
    (hfc : u.frameComplete = false) : Inv u := by
  simp [Inv, hd, hst, hm, hsa, hfc]

theorem inv_parsePhase (pol : Nat → Nat → Bool) (s : Session) (c : CallInput)
    (h : Inv s) (hd : s.hasDecoder = true)
    (hst : s.decoder_state = DecoderState.kInitial) :
    Inv (parsePhase pol s c).1 := by
  obtain ⟨h1, h2, h3, h4, h5⟩ := h
  have hm : s.have_metadata = false := by
    cases hmm : s.have_metadata with
    | false => rfl
    | true => simp [hst] at h3; exact absurd hmm (by simp [h3])
  have hfc : s.frameComplete = false := by
    cases hff : s.frameComplete with
    | false => rfl
    | true => rw [h5 hff] at hst; cases hst
  unfold parsePhase
  cases hps : c.parseResult.status with
  | error => simp [Inv, hd, hst, hm, hfc]
  | needMoreInput => simp [Inv, hd, hst, hm, hfc]
  | success =>
    by_cases hpol : pol c.engineBasicInfo.width c.engineBasicInfo.height
    · by_cases hos : c.only_size
      · by_cases hbps : 8 < c.engineBasicInfo.bits_per_sample <;>
          simp [hpol, hos, hbps, Inv, hd, hfc]
      · by_cases hbps : 8 < c.engineBasicInfo.bits_per_sample <;>
          simp only [hpol, hos, hbps, if_true, if_false, ite_true, ite_false,
            Bool.false_eq_true, Bool.true_eq_false] <;>
          exact inv_pixelPhase _ c _
            (inv_of_meta _ (by simp [hd]) rfl rfl rfl (by simp [hfc]))
            (by simp [hd]) rfl
    · simp [hpol, Inv, hd, hst, hm, hfc]

theorem inv_preserved (pol : Nat → Nat → Bool) (s : Session) (c : CallInput)
    (h : Inv s) : Inv (decodeStep pol s c).1 := by
  unfold decodeStep
  by_cases hf : s.failed
  · simp [hf, h]
  · by_cases hg2 : (c.only_size && s.sizeAvailable && s.have_metadata) = true
    · simp [hf, hg2, h]
    · by_cases hg3 :
        (!c.only_size && decide (c.index < s.frameBuffers) && s.frameComplete)
          = true
      · simp [hf, hg2, hg3, h]
      · have ht := inv_afterCreate s h
        have htd := afterCreate_hasDecoder s
        simp only [hf, hg2, hg3, if_false, Bool.false_eq_true, ite_false]
        by_cases hr : 0 < c.data_size - (afterCreate s).input_offset
        · simp only [hr, if_true, ite_true]
          cases hts : (afterCreate s).decoder_state with
          | kInitial => exact inv_parsePhase pol _ c ht htd hts
          | kHaveBasicInfo => exact inv_pixelPhase _ c noEffects ht htd hts
          | kDecoding => simpa [hts] using ht
          | kComplete => simpa [hts] using ht
          | kError => simpa [hts] using ht
        · simp [hr, ht]

theorem parsePhase_size_only (pol : Nat → Nat → Bool) (t : Session)
    (c : CallInput) (hos : c.only_size = true)
    (hst : t.decoder_state = DecoderState.kInitial) :
    (parsePhase pol t c).2.frameAllocated = false
    ∧ (parsePhase pol t c).2.initFrameCalled = false
    ∧ (parsePhase pol t c).2.decodeCalled = false
    ∧ (parsePhase pol t c).1.frameBuffers = t.frameBuffers
    ∧ (parsePhase pol t c).1.frameComplete = t.frameComplete
    ∧ (parsePhase pol t c).1.framePixelsChanged = t.framePixelsChanged
    ∧ (parsePhase pol t c).1.decoder_state ≠ DecoderState.kComplete := by
  unfold parsePhase
  cases hps : c.parseResult.status with
  | error => simp [hst, parseOnlyEff]
  | needMoreInput => simp [hst, parseOnlyEff]
  | success =>
    by_cases hpol : pol c.engineBasicInfo.width c.engineBasicInfo.height <;>
      by_cases hbps : 8 < c.engineBasicInfo.bits_per_sample <;>
        by_cases hic : c.ignoresColorSpace <;>
          simp [hpol, hbps, hic, hos, hst, parseInfoEff, metaEffNoIcc,
            metaEffIcc]

/-- C10: `MatchesJPEGSignature` returns true exactly when at least the
4-byte magic length is available and the engine's signature predicate
accepts the first 4 bytes; in particular any shorter window yields false
without consulting the engine.  Statelessness is by construction: the
embedded function is a pure function of the byte window alone. -/
theorem C10_signature_detection (sig : List Nat → Bool) (data : List Nat) :
    MatchesJPEGSignature sig data = true ↔
      4 ≤ data.length ∧ sig (List.take 4 data) = true := by
  unfold MatchesJPEGSignature
  by_cases h : data.length < 4
  · simp only [if_pos h]
    constructor
    · intro hx
      cases hx
    · rintro ⟨h4, _⟩
      omega
  · have h4 : 4 ≤ data.length := by omega
    simp [h, h4]

/-- C6: once the session has failed, every subsequent decode call returns
immediately, performing no engine operation and mutating nothing, and the
failure signal remains asserted. -/
theorem C6_failed_is_absorbing (pol : Nat → Nat → Bool) (s : Session)
    (c : CallInput) (h : s.failed = true) :
    decodeStep pol s c = (s, noEffects)
    ∧ (decodeStep pol s c).1.failed = true := by
  have h1 : decodeStep pol s c = (s, noEffects) := by
    unfold decodeStep
    simp [h]
  exact ⟨h1, by rw [h1]; exact h⟩

/-- Failed session used to witness C6. -/
def w6s : Session := { initialSession with failed := true }

/-- Call input used to witness C6. -/
def w6c : CallInput where
  index := 0
  only_size := false
  data_size := 10
  all_input := true
  parseResult := ⟨JpegRsStatus.success, 10⟩
  engineBasicInfo := ⟨16, 16, 8⟩
  ignoresColorSpace := true
  initFrameBufferOk := true
  framePixelsAvail := true
  decodeResult := ⟨JpegRsStatus.success, 10⟩

theorem C6_witness :
    decodeStep (fun _ _ => true) w6s w6c = (w6s, noEffects)
    ∧ (decodeStep (fun _ _ => true) w6s w6c).1.failed = true :=
  C6_failed_is_absorbing (fun _ _ => true) w6s w6c rfl

/-- Host size policy for the C2 failing input: reject every dimension. -/
def c2pol : Nat → Nat → Bool := fun _ _ => false

/-- C2 failing input: header parse succeeds with dimensions the host's
size policy refuses. -/
def c2call : CallInput where
  index := 0
  only_size := true
  data_size := 4
  all_input := true
  parseResult := ⟨JpegRsStatus.success, 4⟩
  engineBasicInfo := ⟨100000, 100000, 8⟩
  ignoresColorSpace := true
  initFrameBufferOk := true
  framePixelsAvail := true
  decodeResult := ⟨JpegRsStatus.success, 0⟩

/-- C2: evaluation of the driver at the failing input.  Header parsing
succeeds (`parse_headers` and `get_basic_info` were invoked) and the host
size policy rejects, yet the call returns with the failed flag still
clear — the terminal failure the claim (and spec §4.3/§7) requires is
never signaled.  `have_metadata` is indeed left unset. -/
theorem C2_size_reject_is_silent :
    (decodeStep c2pol initialSession c2call).1.failed = false
    ∧ (decodeStep c2pol initialSession c2call).1.have_metadata = false
    ∧ (decodeStep c2pol initialSession c2call).2.parseCalled = true
    ∧ (decodeStep c2pol initialSession c2call).2.getBasicInfoCalled = true := by
  decide

/-- C4: a call that arrives with zero unconsumed bytes performs no engine
operation and leaves every observable session field unchanged (only the
lazy engine-handle creation may occur). -/
theorem C4_no_unconsumed_no_op (pol : Nat → Nat → Bool) (s : Session)
    (c : CallInput) (hInv : Inv s) (hrem : c.data_size = s.input_offset) :
    (decodeStep pol s c).2 = noEffects
    ∧ (decodeStep pol s c).1.decoder_state = s.decoder_state
    ∧ (decodeStep pol s c).1.input_offset = s.input_offset
    ∧ (decodeStep pol s c).1.have_metadata = s.have_metadata
    ∧ (decodeStep pol s c).1.is_high_bit_depth = s.is_high_bit_depth
    ∧ (decodeStep pol s c).1.failed = s.failed
    ∧ (decodeStep pol s c).1.sizeAvailable = s.sizeAvailable
    ∧ (decodeStep pol s c).1.frameBuffers = s.frameBuffers
    ∧ (decodeStep pol s c).1.frameComplete = s.frameComplete
    ∧ (decodeStep pol s c).1.framePixelsChanged = s.framePixelsChanged
    ∧ (decodeStep pol s c).1.basic_info = s.basic_info := by
  obtain ⟨f1, f2, f3, f4, f5, f6, f7, f8, f9, f10⟩ := afterCreate_fields s hInv
  have key : decodeStep pol s c = (s, noEffects)
      ∨ decodeStep pol s c = (afterCreate s, noEffects) := by
    unfold decodeStep
    by_cases hf : s.failed
    · left; simp [hf]
    · by_cases hg2 : (c.only_size && s.sizeAvailable && s.have_metadata) = true
      · left; simp [hf, hg2]
      · by_cases hg3 :
          (!c.only_size && decide (c.index < s.frameBuffers)
            && s.frameComplete) = true
        · left; simp [hf, hg2, hg3]
        · right
          have hr : ¬ 0 < c.data_size - (afterCreate s).input_offset := by
            rw [f1, hrem]
            omega
          simp [hf, hg2, hg3, hr]
  rcases key with hk | hk <;> rw [hk]
  · exact ⟨rfl, rfl, rfl, rfl, rfl, rfl, rfl, rfl, rfl, rfl, rfl⟩
  · exact ⟨rfl, f2, f1, f3, f4, f5, f6, f7, f8, f9, f10⟩

/-- Call input used to witness C4: no bytes delivered yet. -/
def w4c : CallInput where
  index := 0
  only_size := false
  data_size := 0
  all_input := false
  parseResult := ⟨JpegRsStatus.needMoreInput, 0⟩
  engineBasicInfo := ⟨0, 0, 0⟩
  ignoresColorSpace := true
  initFrameBufferOk := true
  framePixelsAvail := true
  decodeResult := ⟨JpegRsStatus.needMoreInput, 0⟩

theorem C4_witness :
    (decodeStep (fun _ _ => true) initialSession w4c).2 = noEffects
    ∧ (decodeStep (fun _ _ => true) initialSession w4c).1.decoder_state
        = initialSession.decoder_state
    ∧ (decodeStep (fun _ _ => true) initialSession w4c).1.input_offset
        = initialSession.input_offset
    ∧ (decodeStep (fun _ _ => true) initialSession w4c).1.have_metadata
        = initialSession.have_metadata
    ∧ (decodeStep (fun _ _ => true) initialSession w4c).1.is_high_bit_depth
        = initialSession.is_high_bit_depth
    ∧ (decodeStep (fun _ _ => true) initialSession w4c).1.failed
        = initialSession.failed
    ∧ (decodeStep (fun _ _ => true) initialSession w4c).1.sizeAvailable
        = initialSession.sizeAvailable
    ∧ (decodeStep (fun _ _ => true) initialSession w4c).1.frameBuffers
        = initialSession.frameBuffers
    ∧ (decodeStep (fun _ _ => true) initialSession w4c).1.frameComplete
        = initialSession.frameComplete
    ∧ (decodeStep (fun _ _ => true) initialSession w4c).1.framePixelsChanged
        = initialSession.framePixelsChanged
    ∧ (decodeStep (fun _ _ => true) initialSession w4c).1.basic_info
        = initialSession.basic_info :=
  C4_no_unconsumed_no_op (fun _ _ => true) initialSession w4c
    (by decide) (by decide)

theorem afterCreate_id (s : Session) (hd : s.hasDecoder = true) :
    afterCreate s = s := by
  unfold afterCreate
  simp [hd]

/-- C5: a size-only call never resizes the frame cache, never calls
`InitFrameBuffer`, never invokes the pixel-decode engine operation (so no
frame-buffer byte is written), leaves the frame fields untouched, and
never moves the state machine to `kComplete` (it can only stand still or
reach `kHaveBasicInfo`). -/
theorem C5_size_only_non_mutation (pol : Nat → Nat → Bool) (s : Session)
    (c : CallInput) (hInv : Inv s) (hos : c.only_size = true) :
    (decodeStep pol s c).2.frameAllocated = false
    ∧ (decodeStep pol s c).2.initFrameCalled = false
    ∧ (decodeStep pol s c).2.decodeCalled = false
    ∧ (decodeStep pol s c).1.frameBuffers = s.frameBuffers
    ∧ (decodeStep pol s c).1.frameComplete = s.frameComplete
    ∧ (decodeStep pol s c).1.framePixelsChanged = s.framePixelsChanged
    ∧ ((decodeStep pol s c).1.decoder_state = DecoderState.kComplete →
        s.decoder_state = DecoderState.kComplete) := by
  obtain ⟨f1, f2, f3, f4, f5, f6, f7, f8, f9, f10⟩ := afterCreate_fields s hInv
  unfold decodeStep
  by_cases hf : s.failed
  · simp [hf, noEffects]
  · by_cases hg2 : (c.only_size && s.sizeAvailable && s.have_metadata) = true
    · simp [hf, hg2, noEffects]
    · have hg3 :
        (!c.only_size && decide (c.index < s.frameBuffers) && s.frameComplete)
          = false := by simp [hos]
      simp only [hf, hg2, hg3, Bool.false_eq_true, if_false, ite_false]
      by_cases hr : 0 < c.data_size - (afterCreate s).input_offset
      · simp only [hr, if_true, ite_true]
        cases hts : (afterCreate s).decoder_state with
        | kInitial =>
          obtain ⟨p1, p2, p3, p4, p5, p6, p7⟩ :=
            parsePhase_size_only pol (afterCreate s) c hos hts
          exact ⟨p1, p2, p3, p4.trans f7, p5.trans f8, p6.trans f9,
            fun hc => absurd hc p7⟩
        | kHaveBasicInfo =>
          exfalso
          have hss : s.decoder_state = DecoderState.kHaveBasicInfo :=
            f2.symm.trans hts
          have hm : s.have_metadata = true := hInv.2.2.1.mpr (Or.inl hss)
          have hsa : s.sizeAvailable = true := hInv.2.2.2.1 hm
          simp [hos, hm, hsa] at hg2
        | kComplete =>
          exact ⟨rfl, rfl, rfl, f7, f8, f9, fun _ => f2.symm.trans hts⟩
        | kError =>
          refine ⟨rfl, rfl, rfl, f7, f8, f9, fun hc => ?_⟩
          rw [hts] at hc
          cases hc
        | kDecoding =>
          refine ⟨rfl, rfl, rfl, f7, f8, f9, fun hc => ?_⟩
          rw [hts] at hc
          cases hc
      · simp only [hr, if_false, ite_false]
        exact ⟨rfl, rfl, rfl, f7, f8, f9, fun hc => f2.symm.trans hc⟩

/-- Call input used to witness C5: a size-only request with the whole
stream already present and a successful header parse. -/
def w5c : CallInput where
  index := 0
  only_size := true
  data_size := 8
  all_input := true
  parseResult := ⟨JpegRsStatus.success, 8⟩
  engineBasicInfo := ⟨16, 16, 8⟩
  ignoresColorSpace := true
  initFrameBufferOk := true
  framePixelsAvail := true
  decodeResult := ⟨JpegRsStatus.success, 0⟩

theorem C5_witness :
    (decodeStep (fun _ _ => true) initialSession w5c).2.frameAllocated = false
    ∧ (decodeStep (fun _ _ => true) initialSession w5c).2.initFrameCalled
        = false
    ∧ (decodeStep (fun _ _ => true) initialSession w5c).2.decodeCalled = false
    ∧ (decodeStep (fun _ _ => true) initialSession w5c).1.frameBuffers
        = initialSession.frameBuffers
    ∧ (decodeStep (fun _ _ => true) initialSession w5c).1.frameComplete
        = initialSession.frameComplete
    ∧ (decodeStep (fun _ _ => true) initialSession w5c).1.framePixelsChanged
        = initialSession.framePixelsChanged
    ∧ ((decodeStep (fun _ _ => true) initialSession w5c).1.decoder_state
          = DecoderState.kComplete →
        initialSession.decoder_state = DecoderState.kComplete) :=
  C5_size_only_non_mutation (fun _ _ => true) initialSession w5c
    (by decide) rfl

/-- Host size policy used in the C1 counterexample: accept everything. -/
def c1pol : Nat → Nat → Bool := fun _ _ => true

/-- C1 counterexample input: `parse_headers` reports `Error` after
consuming 2 of the 4 offered bytes. -/
def c1call : CallInput where
  index := 0
  only_size := true
  data_size := 4
  all_input := false
  parseResult := ⟨JpegRsStatus.error, 2⟩
  engineBasicInfo := ⟨16, 16, 8⟩
  ignoresColorSpace := true
  initFrameBufferOk := true
  framePixelsAvail := true
  decodeResult := ⟨JpegRsStatus.needMoreInput, 0⟩

/-- C1 counterexample: the engine operation ran and reported
`bytes_consumed = 2` with status `Error`, yet `input_offset_` is left at
its pre-call value 0 — `bytes_consumed` is NOT added on the `Error`
path, refuting "exactly once ... for every result status". -/
theorem C1_counterexample :
    (decodeStep c1pol initialSession c1call).2.parseCalled = true
    ∧ c1call.parseResult.bytes_consumed = 2
    ∧ (decodeStep c1pol initialSession c1call).1.input_offset
        = initialSession.input_offset
    ∧ ¬ (decodeStep c1pol initialSession c1call).1.input_offset
        = initialSession.input_offset + c1call.parseResult.bytes_consumed := by
  decide

/-- C1 amended: for every decode call, each engine operation the call
invokes has its `bytes_consumed` added to `consumedOffset` exactly once
before the call returns when that operation reports `Success` or
`NeedMoreInput`; an operation reporting `Error` contributes nothing (and
the session is marked failed), leaving `consumedOffset` at its pre-call
value plus the contributions of the operations that preceded it in the
same call.  Stated exhaustively for every engine-invoking path: a
header-parse call in state `kInitial` (all three statuses; on `Success`
the size-only, size-rejected, frame-buffer-failure and fused pixel-decode
continuations, the last with all three pixel statuses), and a direct
pixel-decode call in state `kHaveBasicInfo` (all three statuses). -/
theorem C1_offset_accounting (pol : Nat → Nat → Bool) (s : Session)
    (c : CallInput) (hInv : Inv s) (hf : s.failed = false)
    (hrem : 0 < c.data_size - s.input_offset) :
    (s.decoder_state = DecoderState.kInitial →
      ((c.parseResult.status = JpegRsStatus.error →
          (decodeStep pol s c).1.input_offset = s.input_offset
          ∧ (decodeStep pol s c).1.failed = true)
        ∧ (c.parseResult.status = JpegRsStatus.needMoreInput →
            (decodeStep pol s c).1.input_offset
              = s.input_offset + c.parseResult.bytes_consumed)
        ∧ (c.parseResult.status = JpegRsStatus.success → c.only_size = true →
            (decodeStep pol s c).1.input_offset
              = s.input_offset + c.parseResult.bytes_consumed)
        ∧ (c.parseResult.status = JpegRsStatus.success →
            pol c.engineBasicInfo.width c.engineBasicInfo.height = false →
            (decodeStep pol s c).1.input_offset
              = s.input_offset + c.parseResult.bytes_consumed)
        ∧ (c.parseResult.status = JpegRsStatus.success → c.only_size = false →
            pol c.engineBasicInfo.width c.engineBasicInfo.height = true →
            (c.initFrameBufferOk = false ∨ c.framePixelsAvail = false) →
            (decodeStep pol s c).1.input_offset
              = s.input_offset + c.parseResult.bytes_consumed
            ∧ (decodeStep pol s c).1.failed = true)
        ∧ (c.parseResult.status = JpegRsStatus.success → c.only_size = false →
            pol c.engineBasicInfo.width c.engineBasicInfo.height = true →
            c.initFrameBufferOk = true → c.framePixelsAvail = true →
          ((c.decodeResult.status = JpegRsStatus.error →
              (decodeStep pol s c).1.input_offset
                = s.input_offset + c.parseResult.bytes_consumed
              ∧ (decodeStep pol s c).1.failed = true)
            ∧ (c.decodeResult.status = JpegRsStatus.needMoreInput →
                (decodeStep pol s c).1.input_offset
                  = s.input_offset + c.parseResult.bytes_consumed
                      + c.decodeResult.bytes_consumed)
            ∧ (c.decodeResult.status = JpegRsStatus.success →
                (decodeStep pol s c).1.input_offset
                  = s.input_offset + c.parseResult.bytes_consumed
                      + c.decodeResult.bytes_consumed)))))
    ∧ (s.decoder_state = DecoderState.kHaveBasicInfo → c.only_size = false →
        c.initFrameBufferOk = true → c.framePixelsAvail = true →
      ((c.decodeResult.status = JpegRsStatus.error →
          (decodeStep pol s c).1.input_offset = s.input_offset
          ∧ (decodeStep pol s c).1.failed = true)
        ∧ (c.decodeResult.status = JpegRsStatus.needMoreInput →
            (decodeStep pol s c).1.input_offset
              = s.input_offset + c.decodeResult.bytes_consumed)
        ∧ (c.decodeResult.status = JpegRsStatus.success →
            (decodeStep pol s c).1.input_offset
              = s.input_offset + c.decodeResult.bytes_consumed))) := by
  constructor
  · intro hst
    have hm : s.have_metadata = false := by
      cases hmm : s.have_metadata with
      | false => rfl
      | true =>
          rcases hInv.2.2.1.mp hmm with hx | hx <;> rw [hst] at hx <;> cases hx
    have hfc : s.frameComplete = false := by
      cases hff : s.frameComplete with
      | false => rfl
      | true => rw [hInv.2.2.2.2 hff] at hst; cases hst
    have hg2 : (c.only_size && s.sizeAvailable && s.have_metadata) = false := by
      simp [hm]
    have hg3 :
        (!c.only_size && decide (c.index < s.frameBuffers) && s.frameComplete)
          = false := by simp [hfc]
    obtain ⟨f1, f2, f3, f4, f5, f6, f7, f8, f9, f10⟩ := afterCreate_fields s hInv
    have hts : (afterCreate s).decoder_state = DecoderState.kInitial :=
      f2.trans hst
    have hr : 0 < c.data_size - (afterCreate s).input_offset := by
      rw [f1]
      exact hrem
    unfold decodeStep
    simp only [hf, hg2, hg3, Bool.false_eq_true, if_false, ite_false, hr,
      if_true, ite_true, hts]
    unfold parsePhase pixelPhase
    refine ⟨?_, ?_, ?_, ?_, ?_, ?_⟩
    · intro hps
      simp [hps, f1, f5, hf]
    · intro hps
      simp [hps, f1]
    · intro hps hos
      by_cases hpol : pol c.engineBasicInfo.width c.engineBasicInfo.height <;>
        by_cases hbps : 8 < c.engineBasicInfo.bits_per_sample <;>
          simp [hps, hpol, hbps, hos, f1]
    · intro hps hpol
      simp [hps, hpol, f1]
    · intro hps hos hpol hfail
      rcases hfail with hi | hi
      · by_cases hbps : 8 < c.engineBasicInfo.bits_per_sample <;>
          by_cases hic : c.ignoresColorSpace <;>
            by_cases hfb : (afterCreate s).frameBuffers = 0 <;>
              simp [hps, hos, hpol, hbps, hic, hfb, hi, f1]
      · by_cases hio : c.initFrameBufferOk
        · by_cases hbps : 8 < c.engineBasicInfo.bits_per_sample <;>
            by_cases hic : c.ignoresColorSpace <;>
              by_cases hfb : (afterCreate s).frameBuffers = 0 <;>
                simp [hps, hos, hpol, hbps, hic, hfb, hio, hi, f1]
        · by_cases hbps : 8 < c.engineBasicInfo.bits_per_sample <;>
            by_cases hic : c.ignoresColorSpace <;>
              by_cases hfb : (afterCreate s).frameBuffers = 0 <;>
                simp [hps, hos, hpol, hbps, hic, hfb, hio, f1]
    · intro hps hos hpol hio hpa
      refine ⟨?_, ?_, ?_⟩ <;> intro hds <;>
        by_cases hbps : 8 < c.engineBasicInfo.bits_per_sample <;>
          by_cases hic : c.ignoresColorSpace <;>
            by_cases hfb : (afterCreate s).frameBuffers = 0 <;>
              simp [hps, hos, hpol, hio, hpa, hds, hbps, hic, hfb, f1]
  · intro hst hos hio hpa
    have hfc : s.frameComplete = false := by
      cases hff : s.frameComplete with
      | false => rfl
      | true => rw [hInv.2.2.2.2 hff] at hst; cases hst
    have hg2 : (c.only_size && s.sizeAvailable && s.have_metadata) = false := by
      simp [hos]
    have hg3 :
        (!c.only_size && decide (c.index < s.frameBuffers) && s.frameComplete)
          = false := by simp [hfc]
    have hd : s.hasDecoder = true := by
      cases hdd : s.hasDecoder with
      | true => rfl
      | false => rw [(hInv.1 hdd).2] at hst; cases hst
    have hid := afterCreate_id s hd
    unfold decodeStep
    simp only [hf, hg2, hg3, Bool.false_eq_true, if_false, ite_false, hid,
      hrem, if_true, ite_true, hst]
    unfold pixelPhase
    refine ⟨?_, ?_, ?_⟩
    · intro hds
      by_cases hfb : s.frameBuffers = 0 <;> simp [hds, hfb, hio, hpa, hf]
    · intro hds
      by_cases hfb : s.frameBuffers = 0 <;> simp [hds, hfb, hio, hpa]
    · intro hds
      by_cases hfb : s.frameBuffers = 0 <;> simp [hds, hfb, hio, hpa]

/-- Call input used to witness C1: a size-only header-parse call whose
parse succeeds consuming 3 bytes. -/
def w1c : CallInput where
  index := 0
  only_size := true
  data_size := 4
  all_input := false
  parseResult := ⟨JpegRsStatus.success, 3⟩
  engineBasicInfo := ⟨16, 16, 8⟩
  ignoresColorSpace := true
  initFrameBufferOk := true
  framePixelsAvail := true
  decodeResult := ⟨JpegRsStatus.needMoreInput, 0⟩

theorem C1_witness :
    (initialSession.decoder_state = DecoderState.kInitial →
      ((w1c.parseResult.status = JpegRsStatus.error →
          (decodeStep c1pol initialSession w1c).1.input_offset
            = initialSession.input_offset
          ∧ (decodeStep c1pol initialSession w1c).1.failed = true)
        ∧ (w1c.parseResult.status = JpegRsStatus.needMoreInput →
            (decodeStep c1pol initialSession w1c).1.input_offset
              = initialSession.input_offset
                + w1c.parseResult.bytes_consumed)
        ∧ (w1c.parseResult.status = JpegRsStatus.success →
            w1c.only_size = true →
            (decodeStep c1pol initialSession w1c).1.input_offset
              = initialSession.input_offset
                + w1c.parseResult.bytes_consumed)
        ∧ (w1c.parseResult.status = JpegRsStatus.success →
            c1pol w1c.engineBasicInfo.width w1c.engineBasicInfo.height
              = false →
            (decodeStep c1pol initialSession w1c).1.input_offset
              = initialSession.input_offset
                + w1c.parseResult.bytes_consumed)
        ∧ (w1c.parseResult.status = JpegRsStatus.success →
            w1c.only_size = false →
            c1pol w1c.engineBasicInfo.width w1c.engineBasicInfo.height
              = true →
            (w1c.initFrameBufferOk = false ∨ w1c.framePixelsAvail = false) →
            (decodeStep c1pol initialSession w1c).1.input_offset
              = initialSession.input_offset
                + w1c.parseResult.bytes_consumed
            ∧ (decodeStep c1pol initialSession w1c).1.failed = true)
        ∧ (w1c.parseResult.status = JpegRsStatus.success →
            w1c.only_size = false →
            c1pol w1c.engineBasicInfo.width w1c.engineBasicInfo.height
              = true →
            w1c.initFrameBufferOk = true → w1c.framePixelsAvail = true →
          ((w1c.decodeResult.status = JpegRsStatus.error →
              (decodeStep c1pol initialSession w1c).1.input_offset
                = initialSession.input_offset
                  + w1c.parseResult.bytes_consumed
              ∧ (decodeStep c1pol initialSession w1c).1.failed = true)
            ∧ (w1c.decodeResult.status = JpegRsStatus.needMoreInput →
                (decodeStep c1pol initialSession w1c).1.input_offset
                  = initialSession.input_offset
                    + w1c.parseResult.bytes_consumed
                    + w1c.decodeResult.bytes_consumed)
            ∧ (w1c.decodeResult.status = JpegRsStatus.success →
                (decodeStep c1pol initialSession w1c).1.input_offset
                  = initialSession.input_offset
                    + w1c.parseResult.bytes_consumed
                    + w1c.decodeResult.bytes_consumed)))))
    ∧ (initialSession.decoder_state = DecoderState.kHaveBasicInfo →
        w1c.only_size = false →
        w1c.initFrameBufferOk = true → w1c.framePixelsAvail = true →
      ((w1c.decodeResult.status = JpegRsStatus.error →
          (decodeStep c1pol initialSession w1c).1.input_offset
            = initialSession.input_offset
          ∧ (decodeStep c1pol initialSession w1c).1.failed = true)
        ∧ (w1c.decodeResult.status = JpegRsStatus.needMoreInput →
            (decodeStep c1pol initialSession w1c).1.input_offset
              = initialSession.input_offset
                + w1c.decodeResult.bytes_consumed)
        ∧ (w1c.decodeResult.status = JpegRsStatus.success →
            (decodeStep c1pol initialSession w1c).1.input_offset
              = initialSession.input_offset
                + w1c.decodeResult.bytes_consumed))) :=
  C1_offset_accounting c1pol initialSession w1c (by decide) rfl (by decide)

/-- C9: when the pixel-decode operation reports `NeedMoreInput`, the call
marks the frame's pixels changed without marking it complete, adds
`bytes_consumed` to the offset, stays in `kHaveBasicInfo`, and does not
signal failure. -/
theorem C9_pixel_need_more_input (pol : Nat → Nat → Bool) (s : Session)
    (c : CallInput) (hInv : Inv s) (hf : s.failed = false)
    (hst : s.decoder_state = DecoderState.kHaveBasicInfo)
    (hos : c.only_size = false)
    (hrem : 0 < c.data_size - s.input_offset)
    (hio : c.initFrameBufferOk = true) (hpa : c.framePixelsAvail = true)
    (hds : c.decodeResult.status = JpegRsStatus.needMoreInput) :
    (decodeStep pol s c).2.decodeCalled = true
    ∧ (decodeStep pol s c).1.framePixelsChanged = true
    ∧ (decodeStep pol s c).1.frameComplete = false
    ∧ (decodeStep pol s c).1.input_offset
        = s.input_offset + c.decodeResult.bytes_consumed
    ∧ (decodeStep pol s c).1.decoder_state = DecoderState.kHaveBasicInfo
    ∧ (decodeStep pol s c).1.failed = false := by
  have hfc : s.frameComplete = false := by
    cases hff : s.frameComplete with
    | false => rfl
    | true => rw [hInv.2.2.2.2 hff] at hst; cases hst
  have hg2 : (c.only_size && s.sizeAvailable && s.have_metadata) = false := by
    simp [hos]
  have hg3 :
      (!c.only_size && decide (c.index < s.frameBuffers) && s.frameComplete)
        = false := by simp [hfc]
  have hd : s.hasDecoder = true := by
    cases hdd : s.hasDecoder with
    | true => rfl
    | false => rw [(hInv.1 hdd).2] at hst; cases hst
  have hid := afterCreate_id s hd
  unfold decodeStep
  simp only [hf, hg2, hg3, Bool.false_eq_true, if_false, ite_false, hid,
    hrem, if_true, ite_true, hst]
  unfold pixelPhase
  by_cases hfb : s.frameBuffers = 0 <;>
    simp [hfb, hio, hpa, hds, hf, hfc, hst]

/-- Session used to witness C9: metadata already extracted, one frame
allocated, pixel decode pending. -/
def w9s : Session where
  hasDecoder := true
  decoder_state := DecoderState.kHaveBasicInfo
  basic_info := ⟨16, 16, 8⟩
  have_metadata := true
  is_high_bit_depth := false
  input_offset := 2
  failed := false
  sizeAvailable := true
  frameBuffers := 1
  frameComplete := false
  framePixelsChanged := false

/-- Call input used to witness C9: pixel decode consumes 5 bytes and
reports `NeedMoreInput`. -/
def w9c : CallInput where
  index := 0
  only_size := false
  data_size := 10
  all_input := false
  parseResult := ⟨JpegRsStatus.success, 0⟩
  engineBasicInfo := ⟨16, 16, 8⟩
  ignoresColorSpace := true
  initFrameBufferOk := true
  framePixelsAvail := true
  decodeResult := ⟨JpegRsStatus.needMoreInput, 5⟩

theorem C9_witness :
    (decodeStep (fun _ _ => true) w9s w9c).2.decodeCalled = true
    ∧ (decodeStep (fun _ _ => true) w9s w9c).1.framePixelsChanged = true
    ∧ (decodeStep (fun _ _ => true) w9s w9c).1.frameComplete = false
    ∧ (decodeStep (fun _ _ => true) w9s w9c).1.input_offset
        = w9s.input_offset + w9c.decodeResult.bytes_consumed
    ∧ (decodeStep (fun _ _ => true) w9s w9c).1.decoder_state
        = DecoderState.kHaveBasicInfo
    ∧ (decodeStep (fun _ _ => true) w9s w9c).1.failed = false :=
  C9_pixel_need_more_input (fun _ _ => true) w9s w9c (by decide) rfl rfl rfl
    (by decide) rfl rfl rfl

theorem pixelPhase_effects_state (s : Session) (c : CallInput)
    (e : CallEffects) :
    (pixelPhase s c e).2.setPixelFormatCalled = e.setPixelFormatCalled
    ∧ (pixelPhase s c e).2.getIccCalled = e.getIccCalled
    ∧ (pixelPhase s c e).2.parseCalled = e.parseCalled
    ∧ (pixelPhase s c e).1.hasDecoder = s.hasDecoder
    ∧ ((pixelPhase s c e).1.decoder_state = s.decoder_state
        ∨ (pixelPhase s c e).1.decoder_state = DecoderState.kComplete) := by
  unfold pixelPhase
  by_cases hfb : s.frameBuffers = 0 <;>
    by_cases hio : c.initFrameBufferOk <;>
      by_cases hpa : c.framePixelsAvail <;>
        cases hds : c.decodeResult.status <;>
          simp [hfb, hio, hpa, hds]

theorem pixelPhase_offset (s : Session) (c : CallInput) (e : CallEffects) :
    (pixelPhase s c e).1.input_offset = s.input_offset
    ∨ (pixelPhase s c e).1.input_offset
        = s.input_offset + c.decodeResult.bytes_consumed := by
  unfold pixelPhase
  by_cases hfb : s.frameBuffers = 0 <;>
    by_cases hio : c.initFrameBufferOk <;>
      by_cases hpa : c.framePixelsAvail <;>
        cases hds : c.decodeResult.status <;>
          simp [hfb, hio, hpa, hds]

theorem parsePhase_offset (pol : Nat → Nat → Bool) (s : Session)
    (c : CallInput) :
    (parsePhase pol s c).1.input_offset = s.input_offset
    ∨ (parsePhase pol s c).1.input_offset
        = s.input_offset + c.parseResult.bytes_consumed
    ∨ (parsePhase pol s c).1.input_offset
        = s.input_offset + c.parseResult.bytes_consumed
            + c.decodeResult.bytes_consumed := by
  unfold parsePhase
  cases hps : c.parseResult.status with
  | error => simp
  | needMoreInput => simp
  | success =>
    by_cases hpol : pol c.engineBasicInfo.width c.engineBasicInfo.height <;>
      by_cases hbps : 8 < c.engineBasicInfo.bits_per_sample <;>
        by_cases hos : c.only_size <;>
          simp only [hpol, hbps, hos, if_true, if_false, ite_true, ite_false,
            Bool.false_eq_true, Bool.true_eq_false]
    all_goals
      rcases pixelPhase_offset
          { s with
              basic_info := c.engineBasicInfo,
              input_offset := s.input_offset + c.parseResult.bytes_consumed,
              sizeAvailable := true,
              is_high_bit_depth := true,
              have_metadata := true,
              decoder_state := DecoderState.kHaveBasicInfo } c
          (if c.ignoresColorSpace = true then metaEffNoIcc else metaEffIcc)
        with h | h <;>
      rcases pixelPhase_offset
          { s with
              basic_info := c.engineBasicInfo,
              input_offset := s.input_offset + c.parseResult.bytes_consumed,
              sizeAvailable := true,
              have_metadata := true,
              decoder_state := DecoderState.kHaveBasicInfo } c
          (if c.ignoresColorSpace = true then metaEffNoIcc else metaEffIcc)
        with h2 | h2 <;>
      simp_all

theorem step_offset_cases (pol : Nat → Nat → Bool) (s : Session)
    (c : CallInput) (hInv : Inv s) :
    (decodeStep pol s c).1.input_offset = s.input_offset
    ∨ (decodeStep pol s c).1.input_offset
        = s.input_offset + c.parseResult.bytes_consumed
    ∨ (decodeStep pol s c).1.input_offset
        = s.input_offset + c.decodeResult.bytes_consumed
    ∨ (decodeStep pol s c).1.input_offset
        = s.input_offset + c.parseResult.bytes_consumed
            + c.decodeResult.bytes_consumed := by
  obtain ⟨f1, f2, f3, f4, f5, f6, f7, f8, f9, f10⟩ := afterCreate_fields s hInv
  unfold decodeStep
  by_cases hf : s.failed
  · simp [hf]
  · by_cases hg2 : (c.only_size && s.sizeAvailable && s.have_metadata) = true
    · simp [hf, hg2]
    · by_cases hg3 :
        (!c.only_size && decide (c.index < s.frameBuffers) && s.frameComplete)
          = true
      · simp [hf, hg2, hg3]
      · simp only [hf, hg2, hg3, Bool.false_eq_true, if_false, ite_false]
        by_cases hr : 0 < c.data_size - (afterCreate s).input_offset
        · simp only [hr, if_true, ite_true]
          cases hts : (afterCreate s).decoder_state with
          | kInitial =>
            rcases parsePhase_offset pol (afterCreate s) c with h | h | h <;>
              rw [h, f1] <;> simp
          | kHaveBasicInfo =>
            rcases pixelPhase_offset (afterCreate s) c noEffects with h | h <;>
              rw [h, f1] <;> simp
          | kComplete => simp [f1]
          | kError => simp [f1]
          | kDecoding => simp [f1]
        · rw [if_neg hr]
          simp [f1]

/-- Host size policy used in the C7 counterexample: accept everything. -/
def c7pol : Nat → Nat → Bool := fun _ _ => true

/-- C7 counterexample input: a full-decode first call where the header
parse succeeds consuming all 4 offered bytes, and the fused pixel-decode
call — which the driver hands the same input window computed before the
parse advanced the offset — reports 4 more bytes consumed. -/
def c7call : CallInput where
  index := 0
  only_size := false
  data_size := 4
  all_input := true
  parseResult := ⟨JpegRsStatus.success, 4⟩
  engineBasicInfo := ⟨16, 16, 8⟩
  ignoresColorSpace := true
  initFrameBufferOk := true
  framePixelsAvail := true
  decodeResult := ⟨JpegRsStatus.needMoreInput, 4⟩

/-- C7 counterexample: both engine results respect the engine contract
(`bytes_consumed` ≤ bytes offered, the 4-byte window each operation was
handed), yet after the call `input_offset_` is 8, exceeding the 4 bytes
ever delivered — the claim's upper bound fails on the fused
header+pixel path, which reuses the input window computed before the
header parse consumed its bytes. -/
theorem C7_counterexample :
    c7call.parseResult.bytes_consumed
        ≤ c7call.data_size - initialSession.input_offset
    ∧ c7call.decodeResult.bytes_consumed
        ≤ c7call.data_size - initialSession.input_offset
    ∧ c7call.data_size
        < (decodeStep c7pol initialSession c7call).1.input_offset := by
  decide

/-- C7 amended: `consumedOffset` never decreases across a call — proved
unconditionally over all engine answers; and it never exceeds the total
bytes delivered provided the bytes the engine reports consumed across
the (at most two) engine operations of the call total at most the
unconsumed bytes at the call's start (the proviso attaches to the upper
bound alone). -/
theorem C7_offset_monotone_bounded (pol : Nat → Nat → Bool) (s : Session)
    (c : CallInput) (hInv : Inv s) :
    s.input_offset ≤ (decodeStep pol s c).1.input_offset
    ∧ (s.input_offset ≤ c.data_size →
        c.parseResult.bytes_consumed + c.decodeResult.bytes_consumed
            ≤ c.data_size - s.input_offset →
        (decodeStep pol s c).1.input_offset ≤ c.data_size) := by
  rcases step_offset_cases pol s c hInv with h | h | h | h <;> rw [h] <;>
    exact ⟨by omega, fun h1 h2 => by omega⟩

/-- Call input used to witness C7: an ordinary header parse consuming 3
of 10 bytes. -/
def w7c : CallInput where
  index := 0
  only_size := true
  data_size := 10
  all_input := false
  parseResult := ⟨JpegRsStatus.needMoreInput, 3⟩
  engineBasicInfo := ⟨16, 16, 8⟩
  ignoresColorSpace := true
  initFrameBufferOk := true
  framePixelsAvail := true
  decodeResult := ⟨JpegRsStatus.needMoreInput, 0⟩

theorem C7_witness :
    initialSession.input_offset
        ≤ (decodeStep c7pol initialSession w7c).1.input_offset
    ∧ (initialSession.input_offset ≤ w7c.data_size →
        w7c.parseResult.bytes_consumed + w7c.decodeResult.bytes_consumed
            ≤ w7c.data_size - initialSession.input_offset →
        (decodeStep c7pol initialSession w7c).1.input_offset
          ≤ w7c.data_size) :=
  C7_offset_monotone_bounded c7pol initialSession w7c (by decide)

theorem step_after_meta (pol : Nat → Nat → Bool) (s : Session) (c : CallInput)
    (hd : s.hasDecoder = true)
    (hst : s.decoder_state ≠ DecoderState.kInitial) :
    (decodeStep pol s c).2.setPixelFormatCalled = false
    ∧ (decodeStep pol s c).2.getIccCalled = false
    ∧ (decodeStep pol s c).1.hasDecoder = true
    ∧ (decodeStep pol s c).1.decoder_state ≠ DecoderState.kInitial := by
  have hid := afterCreate_id s hd
  unfold decodeStep
  by_cases hf : s.failed
  · simp [hf, noEffects, hd, hst]
  · by_cases hg2 : (c.only_size && s.sizeAvailable && s.have_metadata) = true
    · simp [hf, hg2, noEffects, hd, hst]
    · by_cases hg3 :
        (!c.only_size && decide (c.index < s.frameBuffers) && s.frameComplete)
          = true
      · simp [hf, hg2, hg3, noEffects, hd, hst]
      · simp only [hf, hg2, hg3, Bool.false_eq_true, if_false, ite_false, hid]
        by_cases hr : 0 < c.data_size - s.input_offset
        · simp only [hr, if_true, ite_true]
          cases hts : s.decoder_state with
          | kInitial => exact absurd hts hst
          | kHaveBasicInfo =>
            obtain ⟨q1, q2, q3, q4, q5⟩ :=
              pixelPhase_effects_state s c noEffects
            refine ⟨q1.trans rfl, q2.trans rfl, q4.trans hd, ?_⟩
            rcases q5 with h | h <;> rw [h]
            · rw [hts]; intro hx; cases hx
            · intro hx; cases hx
          | kComplete => simp [noEffects, hd, hts]
          | kError => simp [noEffects, hd, hts]
          | kDecoding => simp [noEffects, hd, hts]
        · simp [hr, noEffects, hd, hst]

theorem parsePhase_meta_done (pol : Nat → Nat → Bool) (t : Session)
    (c : CallInput) (htd : t.hasDecoder = true)
    (h : (parsePhase pol t c).2.setPixelFormatCalled = true
      ∨ (parsePhase pol t c).2.getIccCalled = true) :
    (parsePhase pol t c).1.hasDecoder = true
    ∧ (parsePhase pol t c).1.decoder_state ≠ DecoderState.kInitial := by
  unfold parsePhase at h ⊢
  cases hps : c.parseResult.status with
  | error => simp [hps, parseOnlyEff] at h
  | needMoreInput => simp [hps, parseOnlyEff] at h
  | success =>
    rw [hps] at h
    by_cases hpol : pol c.engineBasicInfo.width c.engineBasicInfo.height
    · by_cases hos : c.only_size
      · by_cases hbps : 8 < c.engineBasicInfo.bits_per_sample <;>
          by_cases hic : c.ignoresColorSpace <;>
            simp [hpol, hos, hbps, hic, htd, metaEffNoIcc, metaEffIcc]
      · by_cases hbps : 8 < c.engineBasicInfo.bits_per_sample <;>
          simp only [hpol, hos, hbps, if_true, if_false, ite_true, ite_false,
            Bool.false_eq_true, Bool.true_eq_false]
        all_goals
          obtain ⟨q1, q2, q3, q4, q5⟩ := pixelPhase_effects_state _ c _
          refine ⟨q4.trans (by simp [htd]), ?_⟩
          rcases q5 with hh | hh <;> rw [hh] <;> intro hx <;> cases hx
    · simp [hpol, parseInfoEff] at h

theorem step_meta_sets_done (pol : Nat → Nat → Bool) (s : Session)
    (c : CallInput)
    (h : (decodeStep pol s c).2.setPixelFormatCalled = true
      ∨ (decodeStep pol s c).2.getIccCalled = true) :
    (decodeStep pol s c).1.hasDecoder = true
    ∧ (decodeStep pol s c).1.decoder_state ≠ DecoderState.kInitial := by
  unfold decodeStep at h ⊢
  by_cases hf : s.failed
  · rw [if_pos hf] at h; simp [noEffects] at h
  · by_cases hg2 : (c.only_size && s.sizeAvailable && s.have_metadata) = true
    · rw [if_neg (by simp [hf]), if_pos hg2] at h
      simp [noEffects] at h
    · by_cases hg3 :
        (!c.only_size && decide (c.index < s.frameBuffers) && s.frameComplete)
          = true
      · rw [if_neg (by simp [hf]), if_neg (by simp [hg2]), if_pos hg3] at h
        simp [noEffects] at h
      · rw [if_neg (by simp [hf]), if_neg (by simp [hg2]),
          if_neg (by simp [hg3])] at h ⊢
        have htd := afterCreate_hasDecoder s
        by_cases hr : 0 < c.data_size - (afterCreate s).input_offset
        · rw [if_pos hr] at h ⊢
          cases hts : (afterCreate s).decoder_state with
          | kInitial =>
            rw [hts] at h
            exact parsePhase_meta_done pol _ c htd h
          | kHaveBasicInfo =>
            rw [hts] at h
            obtain ⟨q1, q2, q3, q4, q5⟩ :=
              pixelPhase_effects_state (afterCreate s) c noEffects
            have h2 :
                (pixelPhase (afterCreate s) c noEffects).2.setPixelFormatCalled
                    = true
                  ∨ (pixelPhase (afterCreate s) c noEffects).2.getIccCalled
                    = true := h
            rw [q1, q2] at h2
            simp [noEffects] at h2
          | kComplete =>
            rw [hts] at h
            have h2 : noEffects.setPixelFormatCalled = true
                ∨ noEffects.getIccCalled = true := h
            simp [noEffects] at h2
          | kError =>
            rw [hts] at h
            have h2 : noEffects.setPixelFormatCalled = true
                ∨ noEffects.getIccCalled = true := h
            simp [noEffects] at h2
          | kDecoding =>
            rw [hts] at h
            have h2 : noEffects.setPixelFormatCalled = true
                ∨ noEffects.getIccCalled = true := h
            simp [noEffects] at h2
        · rw [if_neg hr] at h
          simp [noEffects] at h

theorem trace_no_meta_after (pol : Nat → Nat → Bool) (cs : List CallInput) :
    ∀ s : Session, s.hasDecoder = true →
      s.decoder_state ≠ DecoderState.kInitial →
      ∀ e ∈ (runTrace pol s cs).2,
        e.setPixelFormatCalled = false ∧ e.getIccCalled = false := by
  induction cs with
  | nil =>
    intro s _ _ e he
    simp [runTrace] at he
  | cons c cs ih =>
    intro s hd hst e he
    obtain ⟨q1, q2, q3, q4⟩ := step_after_meta pol s c hd hst
    simp only [runTrace, List.mem_cons] at he
    rcases he with rfl | he
    · exact ⟨q1, q2⟩
    · exact ih _ q3 q4 e he

theorem trace_meta_at_most_once (pol : Nat → Nat → Bool)
    (cs : List CallInput) :
    ∀ s : Session,
      (((runTrace pol s cs).2.filter
          (fun e => e.setPixelFormatCalled || e.getIccCalled)).length ≤ 1) := by
  induction cs with
  | nil =>
    intro s
    simp [runTrace]
  | cons c cs ih =>
    intro s
    simp only [runTrace, List.filter_cons]
    by_cases h :
        ((decodeStep pol s c).2.setPixelFormatCalled
          || (decodeStep pol s c).2.getIccCalled) = true
    · have hdone := step_meta_sets_done pol s c (by
        rcases Bool.or_eq_true_iff.mp h with hx | hx
        · exact Or.inl hx
        · exact Or.inr hx)
      have hnil :
          (runTrace pol (decodeStep pol s c).1 cs).2.filter
              (fun e => e.setPixelFormatCalled || e.getIccCalled) = [] := by
        rw [List.filter_eq_nil_iff]
        intro a ha
        obtain ⟨z1, z2⟩ := trace_no_meta_after pol cs _ hdone.1 hdone.2 a ha
        simp [z1, z2]
      simp [h, hnil]
    · simp only [h, Bool.false_eq_true, if_false, ite_false]
      exact ih _

/-- C3 amended: across any sequence of decode calls on one session, the
completing part of the metadata-extraction block — `set_pixel_format`
and the ICC-profile fetch (in whose branch `have_metadata_` is set) —
executes in at most one call. -/
theorem C3_metadata_completion_once (pol : Nat → Nat → Bool)
    (cs : List CallInput) :
    (((runTrace pol initialSession cs).2.filter
        (fun e => e.setPixelFormatCalled || e.getIccCalled)).length ≤ 1) :=
  trace_meta_at_most_once pol cs initialSession

/-- Host size policy used in the C3 counterexample: reject every
dimension. -/
def c3pol : Nat → Nat → Bool := fun _ _ => false

/-- C3 counterexample, first call: header parse succeeds consuming 2 of
4 bytes; the host size policy then rejects. -/
def c3call1 : CallInput where
  index := 0
  only_size := true
  data_size := 4
  all_input := false
  parseResult := ⟨JpegRsStatus.success, 2⟩
  engineBasicInfo := ⟨16, 16, 8⟩
  ignoresColorSpace := true
  initFrameBufferOk := true
  framePixelsAvail := true
  decodeResult := ⟨JpegRsStatus.success, 0⟩

/-- C3 counterexample, second call: more bytes have arrived; the state
machine is still `kInitial`, so header parsing runs — and succeeds —
again. -/
def c3call2 : CallInput where
  index := 0
  only_size := true
  data_size := 8
  all_input := false
  parseResult := ⟨JpegRsStatus.success, 2⟩
  engineBasicInfo := ⟨16, 16, 8⟩
  ignoresColorSpace := true
  initFrameBufferOk := true
  framePixelsAvail := true
  decodeResult := ⟨JpegRsStatus.success, 0⟩

/-- C3 counterexample: when the host size policy rejects the parsed
dimensions, the session stays in `kInitial` with `have_metadata_` still
false, so a later call re-enters the metadata-extraction block: header
parsing succeeds twice and `get_basic_info` (the block's first step) runs
twice — the block is not limited to one execution, and what stops its
completion from re-running is the state-machine transition, not the
`have_metadata_` flag. -/
theorem C3_counterexample :
    ((runTrace c3pol initialSession [c3call1, c3call2]).2.map
        (fun e => e.parseCalled)) = [true, true]
    ∧ ((runTrace c3pol initialSession [c3call1, c3call2]).2.map
        (fun e => e.getBasicInfoCalled)) = [true, true]
    ∧ (runTrace c3pol initialSession [c3call1, c3call2]).1.have_metadata
        = false := by
  decide

theorem pixelPhase_complete (s : Session) (c : CallInput) (e : CallEffects)
    (hst : s.decoder_state = DecoderState.kHaveBasicInfo)
    (h : (pixelPhase s c e).1.decoder_state = DecoderState.kComplete) :
    c.decodeResult.status = JpegRsStatus.success := by
  unfold pixelPhase at h
  by_cases hfb : s.frameBuffers = 0 <;>
    by_cases hio : c.initFrameBufferOk <;>
      by_cases hpa : c.framePixelsAvail <;>
        cases hds : c.decodeResult.status <;>
          simp_all [hfb, hio, hpa, hds, hst]

theorem parsePhase_complete (pol : Nat → Nat → Bool) (t : Session)
    (c : CallInput) (hts : t.decoder_state = DecoderState.kInitial)
    (h : (parsePhase pol t c).1.decoder_state = DecoderState.kComplete) :
    c.only_size = false ∧ c.parseResult.status = JpegRsStatus.success
    ∧ c.decodeResult.status = JpegRsStatus.success := by
  unfold parsePhase at h
  cases hps : c.parseResult.status with
  | error =>
    rw [hps] at h
    simp [hts] at h
  | needMoreInput =>
    rw [hps] at h
    simp [hts] at h
  | success =>
    rw [hps] at h
    by_cases hpol : pol c.engineBasicInfo.width c.engineBasicInfo.height
    · by_cases hos : c.only_size
      · simp [hpol, hos] at h
      · by_cases hbps : 8 < c.engineBasicInfo.bits_per_sample <;>
          simp only [hpol, hos, hbps, if_true, if_false, ite_true, ite_false,
            Bool.false_eq_true, Bool.true_eq_false] at h <;>
          exact ⟨by simp [hos], rfl, pixelPhase_complete _ c _ rfl h⟩
    · simp [hpol, hts] at h

/-- C8: from state `kInitial`, a full-decode call whose header parse
succeeds (and whose dimensions the host accepts) continues into pixel
decode within the same call; if that also succeeds the same call marks
pixels changed, marks the frame complete and moves the machine to
`kComplete`.  Conversely, reaching `kComplete` from `kInitial` in one
call happens only on this fused path: the request was a full decode and
both engine operations reported `Success`. -/
theorem C8_fused_full_decode (pol : Nat → Nat → Bool) (s : Session)
    (c : CallInput) (hInv : Inv s) (hf : s.failed = false)
    (hst : s.decoder_state = DecoderState.kInitial) :
    (c.only_size = false → 0 < c.data_size - s.input_offset →
      c.parseResult.status = JpegRsStatus.success →
      pol c.engineBasicInfo.width c.engineBasicInfo.height = true →
      c.initFrameBufferOk = true → c.framePixelsAvail = true →
      c.decodeResult.status = JpegRsStatus.success →
      (decodeStep pol s c).2.parseCalled = true
      ∧ (decodeStep pol s c).2.decodeCalled = true
      ∧ (decodeStep pol s c).1.have_metadata = true
      ∧ (decodeStep pol s c).1.framePixelsChanged = true
      ∧ (decodeStep pol s c).1.frameComplete = true
      ∧ (decodeStep pol s c).1.decoder_state = DecoderState.kComplete)
    ∧ ((decodeStep pol s c).1.decoder_state = DecoderState.kComplete →
      c.only_size = false ∧ c.parseResult.status = JpegRsStatus.success
      ∧ c.decodeResult.status = JpegRsStatus.success) := by
  have hm : s.have_metadata = false := by
    cases hmm : s.have_metadata with
    | false => rfl
    | true =>
        rcases hInv.2.2.1.mp hmm with hx | hx <;> rw [hst] at hx <;> cases hx
  have hfc : s.frameComplete = false := by
    cases hff : s.frameComplete with
    | false => rfl
    | true => rw [hInv.2.2.2.2 hff] at hst; cases hst
  have hg2 : (c.only_size && s.sizeAvailable && s.have_metadata) = false := by
    simp [hm]
  have hg3 :
      (!c.only_size && decide (c.index < s.frameBuffers) && s.frameComplete)
        = false := by simp [hfc]
  obtain ⟨f1, f2, f3, f4, f5, f6, f7, f8, f9, f10⟩ := afterCreate_fields s hInv
  have hts : (afterCreate s).decoder_state = DecoderState.kInitial :=
    f2.trans hst
  constructor
  · intro hos hrem hp hpol hio hpa hdsucc
    have hr : 0 < c.data_size - (afterCreate s).input_offset := by
      rw [f1]
      exact hrem
    unfold decodeStep
    simp only [hf, hg2, hg3, Bool.false_eq_true, if_false, ite_false, hr,
      if_true, ite_true, hts]
    unfold parsePhase pixelPhase
    by_cases hbps : 8 < c.engineBasicInfo.bits_per_sample <;>
      by_cases hic : c.ignoresColorSpace <;>
        by_cases hfb : (afterCreate s).frameBuffers = 0 <;>
          simp [hp, hpol, hos, hbps, hic, hio, hpa, hdsucc, hfb,
            metaEffNoIcc, metaEffIcc]
  · intro hcomp
    unfold decodeStep at hcomp
    rw [if_neg (by simp [hf]), if_neg (by simp [hg2]),
      if_neg (by simp [hg3])] at hcomp
    by_cases hr : 0 < c.data_size - (afterCreate s).input_offset
    · rw [if_pos hr] at hcomp
      rw [hts] at hcomp
      exact parsePhase_complete pol _ c hts hcomp
    · rw [if_neg hr] at hcomp
      rw [hts] at hcomp
      cases hcomp

/-- Call input used to witness C8: the whole 10-byte stream present, the
header parse consuming 3 bytes and the fused pixel decode succeeding. -/
def w8c : CallInput where
  index := 0
  only_size := false
  data_size := 10
  all_input := true
  parseResult := ⟨JpegRsStatus.success, 3⟩
  engineBasicInfo := ⟨16, 16, 8⟩
  ignoresColorSpace := true
  initFrameBufferOk := true
  framePixelsAvail := true
  decodeResult := ⟨JpegRsStatus.success, 7⟩

theorem C8_witness :
    (w8c.only_size = false → 0 < w8c.data_size - initialSession.input_offset →
      w8c.parseResult.status = JpegRsStatus.success →
      (fun _ _ => true : Nat → Nat → Bool) w8c.engineBasicInfo.width
          w8c.engineBasicInfo.height = true →
      w8c.initFrameBufferOk = true → w8c.framePixelsAvail = true →
      w8c.decodeResult.status = JpegRsStatus.success →
      (decodeStep (fun _ _ => true) initialSession w8c).2.parseCalled = true
      ∧ (decodeStep (fun _ _ => true) initialSession w8c).2.decodeCalled = true
      ∧ (decodeStep (fun _ _ => true) initialSession w8c).1.have_metadata
          = true
      ∧ (decodeStep (fun _ _ => true) initialSession w8c).1.framePixelsChanged
          = true
      ∧ (decodeStep (fun _ _ => true) initialSession w8c).1.frameComplete
          = true
      ∧ (decodeStep (fun _ _ => true) initialSession w8c).1.decoder_state
          = DecoderState.kComplete)
    ∧ ((decodeStep (fun _ _ => true) initialSession w8c).1.decoder_state
          = DecoderState.kComplete →
      w8c.only_size = false ∧ w8c.parseResult.status = JpegRsStatus.success
      ∧ w8c.decodeResult.status = JpegRsStatus.success) :=
  C8_fused_full_decode (fun _ _ => true) initialSession w8c (by decide) rfl rfl

end JPEGRs
